import Mathlib

/-!
Verification development for the `wayback-archiver` repository
(`src/lib.rs` and `src/main.rs`).

The repository contains two iterations of the same small module:
`src/lib.rs` holds the refactored library (`archive_url`,
`fetch_latest_snapshot`, `parse_wayback_timestamp`,
`timestamp_from_archive_url`), while `src/main.rs` holds the batch
pipeline (`main`) together with an older embedded duplicate of
`archive_url` with its own `ArchiveError` enumeration.  Both are
embedded below; the `main.rs` duplicates carry a `main_` / `Main`
prefix because Lean cannot reuse the names.

Modelling conventions:
* Network effects are replaced by an explicit environment (`HttpEnv`)
  recording the outcome the remote service would produce for the one
  availability query and the one save request a single `archive_url`
  call can make.  Whether the save endpoint was reached is returned as
  an explicit `Bool` alongside the result.
* `chrono::NaiveDateTime` is modelled by a calendar record
  (`NaiveDateTime`); comparisons and duration arithmetic go through
  `NaiveDateTime.toEpochSec` (seconds since 1970-01-01), which agrees
  with chrono's ordering and `Duration` arithmetic on calendar-valid
  values.  Sub-second precision of `Utc::now()` and chrono's
  leap-second representation (seconds field 60) are outside the
  modelled scope; no claim depends on them.
* Strings are modelled as sequences of characters; all concrete inputs
  used in theorems are ASCII, where Rust's byte-wise ordering and
  UTF-8 lengths agree with the character-wise model.
-/

/-- Decidable equality for `Except` (not provided by the library),
used to evaluate the embedded functions at concrete inputs. -/
instance {ε α : Type} [DecidableEq ε] [DecidableEq α] : DecidableEq (Except ε α) := fun x y =>
  match x, y with
  | .ok a, .ok b => if h : a = b then isTrue (by rw [h]) else isFalse (by simp [h])
  | .ok _, .error _ => isFalse (by simp)
  | .error _, .ok _ => isFalse (by simp)
  | .error a, .error b => if h : a = b then isTrue (by rw [h]) else isFalse (by simp [h])

/-! ## Timestamp Codec (`chrono` as used by the source) -/

/-- Model of `chrono::NaiveDateTime` restricted to whole seconds
(the only values produced by `parse_from_str` with format
`%Y%m%d%H%M%S`). -/
structure NaiveDateTime where
  year : Nat
  month : Nat
  day : Nat
  hour : Nat
  minute : Nat
  second : Nat
deriving DecidableEq, Repr

/-- Days from 1970-01-01 of a civil date (proleptic Gregorian),
Howard Hinnant's `days_from_civil` algorithm, which chrono's calendar
arithmetic agrees with. -/
def civilToDays (year month day : Nat) : Int :=
  let y : Int := if month ≤ 2 then (year : Int) - 1 else (year : Int)
  let era : Int := Int.fdiv y 400
  let yoe : Int := y - era * 400
  let mp : Int := ((month : Int) + 9) % 12
  let doy : Int := (153 * mp + 2) / 5 + (day : Int) - 1
  let doe : Int := yoe * 365 + yoe / 4 - yoe / 100 + doy
  era * 146097 + doe - 719468

/-- Seconds since 1970-01-01T00:00:00 of a `NaiveDateTime`.  For
calendar-valid values this is exactly chrono's timeline position, so
`<` on `toEpochSec` agrees with chrono's `Ord` on `NaiveDateTime` and
with its `Duration` subtraction. -/
def NaiveDateTime.toEpochSec (t : NaiveDateTime) : Int :=
  civilToDays t.year t.month t.day * 86400
    + (t.hour : Int) * 3600 + (t.minute : Int) * 60 + (t.second : Int)

def isLeapYear (y : Nat) : Bool :=
  (y % 4 = 0 && y % 100 ≠ 0) || y % 400 = 0

def daysInMonth (y m : Nat) : Nat :=
  if m = 2 then (if isLeapYear y then 29 else 28)
  else if m = 4 ∨ m = 6 ∨ m = 9 ∨ m = 11 then 30
  else 31

/-- Calendar validity checked by chrono's `Parsed::to_naive_date` /
`to_naive_time` (leap seconds excluded, see module comment). -/
def validDateTime (t : NaiveDateTime) : Bool :=
  1 ≤ t.month && t.month ≤ 12 && 1 ≤ t.day && t.day ≤ daysInMonth t.year t.month
    && t.hour ≤ 23 && t.minute ≤ 59 && t.second ≤ 59

def digitsToNat (ds : List Char) : Nat :=
  ds.foldl (fun n c => 10 * n + (c.toNat - 48)) 0

/-- chrono's `scan::number(s, 1, max)`: consume greedily up to `maxw`
leading ASCII digits; an empty input yields "premature end of input",
a leading non-digit yields "input contains invalid characters". -/
def scanNumber (maxw : Nat) (cs : List Char) : Except String (Nat × List Char) :=
  let ds := (cs.take maxw).takeWhile Char.isDigit
  if ds.isEmpty then
    if cs.isEmpty then .error "premature end of input"
    else .error "input contains invalid characters"
  else .ok (digitsToNat ds, cs.drop ds.length)

/-- `NaiveDateTime::parse_from_str(ts, "%Y%m%d%H%M%S")`.  Without an
explicit sign chrono parses `%Y` with at most 4 digits and each of
`%m %d %H %M %S` with at most 2; leftover input is "trailing input"
and calendar-invalid fields are "input is out of range".  The error
strings are chrono's `Display` texts (carried into
`ArchiveError::ParseError` by the source via `err.to_string()`). -/
def parseChrono (ts : String) : Except String NaiveDateTime := do
  let (y, r1) ← scanNumber 4 ts.data
  let (mo, r2) ← scanNumber 2 r1
  let (d, r3) ← scanNumber 2 r2
  let (h, r4) ← scanNumber 2 r3
  let (mi, r5) ← scanNumber 2 r4
  let (s, r6) ← scanNumber 2 r5
  if !r6.isEmpty then
    .error "trailing input"
  else
    let t : NaiveDateTime := ⟨y, mo, d, h, mi, s⟩
    if validDateTime t then .ok t else .error "input is out of range"

/-! ## `src/lib.rs` data model -/

/-- `ArchiveError` from `src/lib.rs`. -/
inductive ArchiveError where
  | BandwidthExceeded
  | UnableToArchive
  | NoExistingSnapshot
  | ParseError (msg : String)
  | Unknown (msg : String)
deriving DecidableEq, Repr

/-- `ArchivingResult` from `src/lib.rs` (`existing_snapshot` is
`#[serde(skip)]`). -/
structure ArchivingResult where
  url : Option String
  last_archived : NaiveDateTime
  existing_snapshot : Bool
deriving DecidableEq, Repr

/-- `WaybackSnapshot` from `src/lib.rs`. -/
structure WaybackSnapshot where
  status : String
  available : Bool
  url : String
  timestamp : String
deriving DecidableEq, Repr

/-- `WaybackAvailabilityResponse` from `src/lib.rs`.  The
`HashMap<String, WaybackSnapshot>` is modelled as an association list
in the (arbitrary) iteration order the map would produce. -/
structure WaybackAvailabilityResponse where
  url : String
  archived_snapshots : Option (List (String × WaybackSnapshot))
deriving DecidableEq, Repr

/-- `parse_wayback_timestamp` from `src/lib.rs`.  The source's
round trip `Utc.from_utc_datetime(&naive_utc).naive_local()` is the
identity on the parsed value (UTC offset zero), so only the parse and
the `ParseError` wrapping remain. -/
def parse_wayback_timestamp (ts : String) : Except ArchiveError NaiveDateTime :=
  (parseChrono ts).mapError ArchiveError.ParseError

/-- One attempt of the regex `/web/(\d+)/` at the head of `cs`:
the literal `/web/`, then a maximal nonempty ASCII digit run, then a
`/`.  (The regex crate's `\d` also covers non-ASCII Unicode digits;
those would fail the subsequent chrono parse anyway and appear in no
theorem below.) -/
def webCaptureAt (cs : List Char) : Option (List Char) :=
  if cs.take 5 = "/web/".data then
    let ds := (cs.drop 5).takeWhile Char.isDigit
    if ds.isEmpty then none
    else if (cs.drop (5 + ds.length)).head? = some '/' then some ds
    else none
  else none

/-- Leftmost match of `/web/(\d+)/`, returning capture group 1. -/
def findWebCapture : List Char → Option String
  | [] => none
  | c :: rest =>
    match webCaptureAt (c :: rest) with
    | some ds => some (String.mk ds)
    | none => findWebCapture rest

/-- `timestamp_from_archive_url` from `src/lib.rs`. -/
def timestamp_from_archive_url (url : String) : Except ArchiveError NaiveDateTime :=
  match findWebCapture url.data with
  | none => .error (.ParseError "unable to extract timestamp from url")
  | some ts => parse_wayback_timestamp ts

/-! ## `src/lib.rs` availability resolver and snapshot requester -/

/-- Result of the availability GET plus JSON decode in
`fetch_latest_snapshot`: a reqwest transport failure (mapped by the
source to `ArchiveError::Unknown`), a JSON decode failure (mapped to
`ArchiveError::ParseError`), or the decoded body. -/
inductive AvailOutcome where
  | transportError (msg : String)
  | decodeError (msg : String)
  | ok (resp : WaybackAvailabilityResponse)
deriving DecidableEq, Repr

/-- Rust's `Ord` on `String` (byte-lexicographic; on the ASCII strings
used throughout, identical to character-lexicographic order). -/
def rustCharsLt : List Char → List Char → Bool
  | [], [] => false
  | [], _ :: _ => true
  | _ :: _, [] => false
  | a :: as, b :: bs =>
    if a < b then true else if b < a then false else rustCharsLt as bs

def rustStrLt (a b : String) : Bool := rustCharsLt a.data b.data

/-- `Iterator::max_by_key(|(_, snapshot)| &snapshot.timestamp)` over
the map's iteration order: the element with the greatest timestamp
(Rust string order; on the later of several equal maxima). -/
def maxByTimestamp (l : List (String × WaybackSnapshot)) :
    Option (String × WaybackSnapshot) :=
  match l with
  | [] => none
  | x :: xs =>
    some (xs.foldl (fun acc y => if rustStrLt y.2.timestamp acc.2.timestamp then acc else y) x)

/-- `fetch_latest_snapshot` from `src/lib.rs`, as a function of the
availability response. -/
def fetch_latest_snapshot (avail : AvailOutcome) : Except ArchiveError ArchivingResult :=
  match avail with
  | .transportError msg => .error (.Unknown msg)
  | .decodeError msg => .error (.ParseError msg)
  | .ok resp =>
    match resp.archived_snapshots with
    | some snapshots =>
      match maxByTimestamp snapshots with
      | some kv =>
        (parse_wayback_timestamp kv.2.timestamp).map fun ts =>
          { existing_snapshot := true, last_archived := ts, url := some kv.2.url }
      | none => .error .NoExistingSnapshot
    | none => .error .NoExistingSnapshot

/-- Terminal state of the save request after reqwest followed all
redirects: the final HTTP status, `resp.url().path()` and
`resp.url().to_string()`. -/
structure SaveResponse where
  status : Nat
  urlPath : String
  urlText : String
deriving DecidableEq, Repr

/-- Rust's `Debug` / `{:#?}` rendering of a string: quote-wrapped with
`char::escape_debug` escapes (shown here for the escapes that ASCII
URLs can hit; every concrete input below is plain ASCII). -/
def rustDebugEscapeChar (c : Char) : String :=
  if c = '"' then "\\\""
  else if c = '\\' then "\\\\"
  else if c = '\n' then "\\n"
  else if c = '\r' then "\\r"
  else if c = '\t' then "\\t"
  else String.singleton c

def rustDebugString (s : String) : String :=
  "\"" ++ String.join (s.data.map rustDebugEscapeChar) ++ "\""

/-- Diagnostic text of the `404` arm: `"Unexpected HTTP 404 at {:#?}"`
applied to `resp.url().to_string()`. -/
def http404Msg (u : String) : String :=
  "Unexpected HTTP 404 at " ++ rustDebugString u

/-- Diagnostic text of the catch-all arm, `"Got status {}: {:#?}"`.
The `{:#?}` dump of the whole `reqwest::Response` is summarised by the
response's final URL; no theorem depends on this text. -/
def unknownStatusMsg (resp : SaveResponse) : String :=
  "Got status " ++ toString resp.status ++ ": " ++ rustDebugString resp.urlText

/-- Rust's `str::starts_with` on strings. -/
def rustStartsWith (s p : String) : Bool := p.data.isPrefixOf s.data

/-- The `match resp.status().as_u16()` classification in
`src/lib.rs::archive_url` (lines 21-47). -/
def classifyStatus (resp : SaveResponse) : Except ArchiveError String :=
  if resp.status = 200 then .ok resp.urlText
  else if resp.status = 404 then
    if rustStartsWith resp.urlPath "/web" then .ok resp.urlText
    else .error (.Unknown (http404Msg resp.urlText))
  else if resp.status = 509 then .error .BandwidthExceeded
  else if resp.status = 403 ∨ resp.status = 520 ∨ resp.status = 523 then
    .error .UnableToArchive
  else .error (.Unknown (unknownStatusMsg resp))

/-- Environment of one `archive_url` call: the current time
(`Utc::now()`), the availability query's outcome, and the save
request's outcome (`Except.error` being a reqwest transport failure,
which the source maps to `ArchiveError::Unknown`). -/
structure HttpEnv where
  now : NaiveDateTime
  availability : AvailOutcome
  save : Except String SaveResponse
deriving Repr

/-- The freshness gate of `src/lib.rs::archive_url` lines 10-15:
accept `latest_snapshot` iff it is `Ok` and
`(Utc::now() - Duration::days(90)).naive_utc() < snapshot.last_archived`. -/
def acceptFresh (now : NaiveDateTime) : Except ArchiveError ArchivingResult → Bool
  | .ok snapshot =>
    decide (now.toEpochSec - 90 * 86400 < snapshot.last_archived.toEpochSec)
  | .error _ => false

/-- `archive_url` from `src/lib.rs`.  The second component records
whether the snapshot-creation (save) endpoint was requested. -/
def archive_url (env : HttpEnv) : Except ArchiveError ArchivingResult × Bool :=
  let latest_snapshot := fetch_latest_snapshot env.availability
  if acceptFresh env.now latest_snapshot then
    (latest_snapshot, false)
  else
    match env.save with
    | .error msg => (.error (.Unknown msg), true)
    | .ok resp =>
      let archiveUrl := classifyStatus resp
      let result : Except ArchiveError ArchivingResult :=
        archiveUrl.bind fun url =>
          (timestamp_from_archive_url url).map fun ts =>
            { last_archived := ts, url := some url, existing_snapshot := false }
      match result with
      | .error ArchiveError.UnableToArchive =>
        (latest_snapshot.mapError fun _ => ArchiveError.UnableToArchive, true)
      | r => (r, true)

/-! ## `src/main.rs`: the batch pipeline and its embedded duplicate -/

/-- `ArchiveError` from `src/main.rs` (older duplicate: it has no
`NoExistingSnapshot` or `ParseError` variants and names the permanent
failure `ArchiveFailed`). -/
inductive MainArchiveError where
  | BandwidthExceeded
  | ArchiveFailed
  | Unknown (msg : String)
deriving DecidableEq, Repr

/-- A `Box<dyn std::error::Error>` as `main.rs` passes it around: the
only inspection performed is `downcast_ref::<ArchiveError>()`, so the
model keeps exactly that distinction — a boxed `ArchiveError` versus
any other boxed error (reqwest / serde), remembered by its text. -/
inductive BoxError where
  | archive (e : MainArchiveError)
  | other (msg : String)
deriving DecidableEq, Repr

/-- `if let Some(ArchiveError::BandwidthExceeded) =
err.downcast_ref::<ArchiveError>()` from the retry loop. -/
def BoxError.isBandwidthExceeded : BoxError → Bool
  | .archive .BandwidthExceeded => true
  | _ => false

/-- Result of one call of `src/main.rs::archive_url`.  Unlike the
library version this function can abort the whole process: the
availability branch unwraps the snapshot-timestamp parse with
`.expect("snapshot timestamp")`, which panics on failure. -/
inductive MainOutcome (α : Type) where
  | ok (a : α)
  | err (e : BoxError)
  | panicked (msg : String)
deriving DecidableEq, Repr

/-- `ArchivingResult` from `src/main.rs` (no `existing_snapshot`
field). -/
structure MainArchivingResult where
  url : Option String
  last_archived : NaiveDateTime
deriving DecidableEq, Repr

/-- The `match resp.status().as_u16()` classification in
`src/main.rs::archive_url` (lines 157-180).  Unlike `src/lib.rs`, the
permanent-failure arm covers only `520 | 523`; a `403` falls to the
catch-all `_` arm. -/
def mainClassifyStatus (resp : SaveResponse) : Except MainArchiveError String :=
  if resp.status = 200 then .ok resp.urlText
  else if resp.status = 404 then
    if rustStartsWith resp.urlPath "/web" then .ok resp.urlText
    else .error (.Unknown (http404Msg resp.urlText))
  else if resp.status = 509 then .error .BandwidthExceeded
  else if resp.status = 520 ∨ resp.status = 523 then .error .ArchiveFailed
  else .error (.Unknown (unknownStatusMsg resp))

/-- The save-request half of `src/main.rs::archive_url` (a reqwest
failure propagates through `?` as a non-`ArchiveError` boxed error). -/
def main_doSave (env : HttpEnv) : MainOutcome String :=
  match env.save with
  | .error msg => .err (.other msg)
  | .ok resp =>
    match mainClassifyStatus resp with
    | .ok u => .ok u
    | .error e => .err (.archive e)

/-- `archive_url` from `src/main.rs` (lines 134-181): availability
check with inline 90-day freshness gate — whose timestamp parse is
`.expect`ed, panicking on malformed input — then the save request. -/
def main_archive_url (env : HttpEnv) : MainOutcome String :=
  match env.availability with
  | .transportError msg => .err (.other msg)
  | .decodeError msg => .err (.other msg)
  | .ok resp =>
    match resp.archived_snapshots with
    | some snapshots =>
      match maxByTimestamp snapshots with
      | some kv =>
        match parseChrono kv.2.timestamp with
        | .error _ => .panicked "snapshot timestamp"
        | .ok ts =>
          if env.now.toEpochSec - 90 * 86400 < ts.toEpochSec then .ok kv.2.url
          else main_doSave env
      | none => main_doSave env
    | none => main_doSave env

/-- Terminal state of the per-URL `loop` in `main` (lines 48-76). -/
inductive LoopResult where
  | finished (r : MainArchivingResult)
  | aborted (msg : String)
  | exhausted
deriving DecidableEq, Repr

/-- The per-URL `loop` of `main`: successive results of
`archive_url(&line).await` are supplied as a list.  `Ok(out)` records
`ArchivingResult { last_archived: Utc::now(), url: Some(out) }`;
`BandwidthExceeded` sleeps 15 s and retries; any other error records
the `url: None` tombstone; a panicked call aborts the process.
`exhausted` marks the modelled response stream ending while the loop
is still retrying (a run that never stops being rate-limited). -/
def resolve_with_retry (now : NaiveDateTime) : List (MainOutcome String) → LoopResult
  | [] => .exhausted
  | a :: rest =>
    match a with
    | .ok out => .finished { url := some out, last_archived := now }
    | .err e =>
      if e.isBandwidthExceeded then resolve_with_retry now rest
      else .finished { url := none, last_archived := now }
    | .panicked msg => .aborted msg

/-- The `BTreeMap<String, ArchivingResult>` of `main`, as an
association list sorted by key (Rust string order). -/
abbrev CacheMap := List (String × MainArchivingResult)

def btGet : CacheMap → String → Option MainArchivingResult
  | [], _ => none
  | (k, v) :: rest, key => if k = key then some v else btGet rest key

def btInsert : CacheMap → String → MainArchivingResult → CacheMap
  | [], k, v => [(k, v)]
  | (k', v') :: rest, k, v =>
    if rustStrLt k k' then (k, v) :: (k', v') :: rest
    else if k = k' then (k, v) :: rest
    else (k', v') :: btInsert rest k v

/-- The cache short-circuit of `main` lines 40-46: reuse the cached
record iff `(Utc::now().naive_utc() - existing.last_archived) <
Duration::days(30 * 6)`.  Note the `url` field is not examined. -/
def cacheFresh (now : NaiveDateTime) (existing : MainArchivingResult) : Bool :=
  decide (now.toEpochSec - existing.last_archived.toEpochSec < 180 * 86400)

/-- Observable persistence actions of a run: the single
`file.write_all` to the `--out` path, or the `println!` fallback. -/
inductive SinkEvent where
  | fileWrite (content : String)
  | stdoutPrint (content : String)
deriving DecidableEq, Repr

/-- One input line plus the successive `archive_url` results its retry
loop would observe. -/
structure UrlTask where
  line : String
  attempts : List (MainOutcome String)
deriving Repr

/-- The fall-through part of one loop iteration of `main`: the per-URL
retry loop followed by `urls.insert`; `none` models the process dying
(panic, or retrying forever). -/
def processRemote (now : NaiveDateTime) (cache : CacheMap) (t : UrlTask) :
    Option (CacheMap × List SinkEvent × Bool) :=
  match resolve_with_retry now t.attempts with
  | .finished r => some (btInsert cache t.line r, [], true)
  | .aborted _ => none
  | .exhausted => none

/-- One iteration of the `for (line_idx, line) in stdin` loop of
`main`: the cache short-circuit (`continue`), else `processRemote`.
The returned list holds the persistence events emitted by this
iteration and the `Bool` whether remote work was performed. -/
def processTask (now : NaiveDateTime) (cache : CacheMap) (t : UrlTask) :
    Option (CacheMap × List SinkEvent × Bool) :=
  match btGet cache t.line with
  | some existing =>
    if cacheFresh now existing then some (cache, [], false)
    else processRemote now cache t
  | none => processRemote now cache t

/-- The whole input loop of `main` over a list of tasks, accumulating
the persistence events emitted while processing. -/
def runLoop (now : NaiveDateTime) (cache : CacheMap) :
    List UrlTask → Option (CacheMap × List SinkEvent)
  | [] => some (cache, [])
  | t :: ts =>
    match processTask now cache t with
    | none => none
    | some (c', ev, _) =>
      (runLoop now c' ts).map fun p => (p.1, ev ++ p.2)

/-! ## Serialization and the final write (`main` lines 80-89) -/

def pad2 (n : Nat) : String :=
  if n < 10 then "0" ++ toString n else toString n

def pad4 (n : Nat) : String :=
  if n < 10 then "000" ++ toString n
  else if n < 100 then "00" ++ toString n
  else if n < 1000 then "0" ++ toString n
  else toString n

/-- chrono's serde serialization of a `NaiveDateTime`
(`%Y-%m-%dT%H:%M:%S%.f`, the fraction omitted at zero nanoseconds —
the only case arising here). -/
def formatNaive (t : NaiveDateTime) : String :=
  pad4 t.year ++ "-" ++ pad2 t.month ++ "-" ++ pad2 t.day ++ "T"
    ++ pad2 t.hour ++ ":" ++ pad2 t.minute ++ ":" ++ pad2 t.second

def hexDigitChar (n : Nat) : String :=
  String.singleton (Char.ofNat (if n < 10 then 48 + n else 87 + n))

/-- serde_json's string escaping. -/
def jsonEscapeChar (c : Char) : String :=
  if c = '"' then "\\\""
  else if c = '\\' then "\\\\"
  else if c = Char.ofNat 8 then "\\b"
  else if c = Char.ofNat 12 then "\\f"
  else if c = '\n' then "\\n"
  else if c = '\r' then "\\r"
  else if c = '\t' then "\\t"
  else if c.toNat < 32 then
    "\\u00" ++ hexDigitChar (c.toNat / 16) ++ hexDigitChar (c.toNat % 16)
  else String.singleton c

def jsonString (s : String) : String :=
  "\"" ++ String.join (s.data.map jsonEscapeChar) ++ "\""

/-- serde_json `to_string_pretty` of one `ArchivingResult` value
(fields in declaration order: `url` then `last_archived`), at nesting
depth 1 (two-space indent). -/
def serializeResult (r : MainArchivingResult) : String :=
  "\x7b\n    \"url\": "
    ++ (match r.url with | some u => jsonString u | none => "null")
    ++ ",\n    \"last_archived\": " ++ jsonString (formatNaive r.last_archived)
    ++ "\n  \x7d"

/-- `serde_json::to_string_pretty(&urls)` for the
`BTreeMap<String, ArchivingResult>`: a JSON object in key order (the
association list is maintained sorted by `btInsert`). -/
def serializeCache (m : CacheMap) : String :=
  match m with
  | [] => "{}"
  | _ =>
    "\x7b\n"
      ++ String.intercalate ",\n"
        (m.map fun kv => "  " ++ jsonString kv.1 ++ ": " ++ serializeResult kv.2)
      ++ "\n\x7d"

/-- `fs::OpenOptions::new().write(true).create(true).open(path)`
followed by `write_all(content)`: the file is NOT truncated, so the
new bytes overwrite from offset 0 and any previous bytes past the new
length survive. -/
def writeNoTruncate (old content : String) : String :=
  content ++ String.mk (old.data.drop content.data.length)

/-- `main` end to end over the modelled inputs: the input loop, then
the unconditional final serialization to the `--out` file (with the
no-truncate open semantics above, `old` being the file's previous
content) or to stdout when no `--out` was given. -/
def runMain (now : NaiveDateTime) (cache : CacheMap) (tasks : List UrlTask)
    (outPath : Option String) (old : String) : Option (CacheMap × List SinkEvent) :=
  (runLoop now cache tasks).map fun p =>
    let formatted := serializeCache p.1
    match outPath with
    | some _ => (p.1, p.2 ++ [.fileWrite (writeNoTruncate old formatted)])
    | none => (p.1, p.2 ++ [.stdoutPrint formatted])

/-! ## Helper lemmas -/

/-- `timestamp_from_archive_url` either succeeds or fails with a
`ParseError` — never with any other `ArchiveError` variant. -/
theorem timestamp_from_archive_url_cases (url : String) :
    (∃ ts, timestamp_from_archive_url url = .ok ts) ∨
    (∃ msg, timestamp_from_archive_url url = .error (.ParseError msg)) := by
  unfold timestamp_from_archive_url parse_wayback_timestamp
  cases findWebCapture url.data with
  | none => exact Or.inr ⟨_, rfl⟩
  | some ts =>
    cases h : parseChrono ts with
    | ok t => exact Or.inl ⟨t, by simp [Except.mapError, h]⟩
    | error m => exact Or.inr ⟨m, by simp [Except.mapError, h]⟩

/-! ## Claims -/

/-- C1: for every URL whose availability check returns an existing
snapshot with `last_archived` strictly within 90 days of the current
time, `archive_url` returns that snapshot's `ArchivingResult`
unchanged and never issues the snapshot-creation request (the `Bool`
component, recording whether the save endpoint was reached, is
`false`). -/
theorem archive_url_fresh_snapshot_short_circuits (env : HttpEnv) (snap : ArchivingResult)
    (h1 : fetch_latest_snapshot env.availability = .ok snap)
    (h2 : env.now.toEpochSec - 90 * 86400 < snap.last_archived.toEpochSec) :
    archive_url env = (.ok snap, false) := by
  have ha : acceptFresh env.now (Except.ok snap) = true := by
    simp only [acceptFresh, decide_eq_true_eq]
    exact h2
  unfold archive_url
  rw [h1]
  simp [ha]

def envC1 : HttpEnv :=
  { now := ⟨2024, 1, 10, 0, 0, 0⟩
    availability := .ok
      { url := "http://example.com"
        archived_snapshots := some
          [("closest",
            { status := "200", available := true
              url := "http://web.archive.org/web/20240101000000/http://example.com"
              timestamp := "20240101000000" })] }
    save := .ok ⟨509, "/save/e", "https://web.archive.org/save/e"⟩ }

def snapC1 : ArchivingResult :=
  { url := some "http://web.archive.org/web/20240101000000/http://example.com"
    last_archived := ⟨2024, 1, 1, 0, 0, 0⟩
    existing_snapshot := true }

/-- Witness for C1 at a concrete nine-day-old snapshot. -/
theorem archive_url_fresh_snapshot_short_circuits_witness :
    archive_url envC1 = (.ok snapC1, false) :=
  archive_url_fresh_snapshot_short_circuits envC1 snapC1 (by decide) (by decide)

/-- C2: when the snapshot request fails with the permanent
`UnableToArchive` (statuses 403/520/523) and the availability check
was not fresh enough to short-circuit, `archive_url` returns exactly
`latest_snapshot.map_err(|_| UnableToArchive)`: the stale snapshot as
a success when the availability check produced one, and the
propagated `UnableToArchive` when it produced none. -/
theorem archive_url_unable_fallback (env : HttpEnv) (resp : SaveResponse)
    (hstale : acceptFresh env.now (fetch_latest_snapshot env.availability) = false)
    (hs : env.save = .ok resp)
    (hst : resp.status = 403 ∨ resp.status = 520 ∨ resp.status = 523) :
    archive_url env =
      ((fetch_latest_snapshot env.availability).mapError fun _ => ArchiveError.UnableToArchive,
        true) := by
  have hcl : classifyStatus resp = .error .UnableToArchive := by
    rcases hst with h | h | h <;> simp [classifyStatus, h]
  simp only [archive_url, hstale, hs, hcl, Bool.false_eq_true, if_false, Except.bind]

def envC2 : HttpEnv :=
  { now := ⟨2024, 1, 10, 0, 0, 0⟩
    availability := .ok
      { url := "http://example.com"
        archived_snapshots := some
          [("closest",
            { status := "200", available := true
              url := "http://web.archive.org/web/20000101000000/http://example.com"
              timestamp := "20000101000000" })] }
    save := .ok ⟨523, "/save/e", "https://web.archive.org/save/e"⟩ }

/-- Witness for C2: a stale (24-year-old) snapshot substitutes for a
523 permanent failure. -/
theorem archive_url_unable_fallback_witness :
    archive_url envC2 =
      ((fetch_latest_snapshot envC2.availability).mapError fun _ => ArchiveError.UnableToArchive,
        true) :=
  archive_url_unable_fallback envC2 ⟨523, "/save/e", "https://web.archive.org/save/e"⟩
    (by decide) (by decide) (by decide)

/-- C10: a 404 save response whose final URL path starts with `/web`
makes `archive_url` behave exactly as it would on a 200 response with
the same final URL (same result, save endpoint equally reached); a 404
whose path does not start with `/web` fails with
`Unknown ("Unexpected HTTP 404 at ...")` carrying the observed URL. -/
theorem archive_url_404_web_equals_200 (env : HttpEnv) (resp : SaveResponse)
    (hstale : acceptFresh env.now (fetch_latest_snapshot env.availability) = false)
    (hs : env.save = .ok resp)
    (h404 : resp.status = 404) :
    (rustStartsWith resp.urlPath "/web" = true →
      archive_url env = archive_url { env with save := .ok { resp with status := 200 } }) ∧
    (rustStartsWith resp.urlPath "/web" = false →
      (archive_url env).1 = .error (.Unknown (http404Msg resp.urlText))) := by
  constructor
  · intro hweb
    have hcl : classifyStatus resp = .ok resp.urlText := by
      simp [classifyStatus, h404, hweb]
    have hcl2 : classifyStatus { resp with status := 200 } = .ok resp.urlText := by
      simp [classifyStatus]
    simp only [archive_url, hstale, hs, hcl, hcl2, Bool.false_eq_true, if_false]
  · intro hweb
    have hcl : classifyStatus resp = .error (.Unknown (http404Msg resp.urlText)) := by
      simp [classifyStatus, h404, hweb]
    simp only [archive_url, hstale, hs, hcl, Bool.false_eq_true, if_false, Except.bind]

def envC10 : HttpEnv :=
  { now := ⟨2024, 1, 10, 0, 0, 0⟩
    availability := .ok { url := "http://example.com", archived_snapshots := none }
    save := .ok ⟨404, "/web/20240110000000/http://example.com",
      "https://web.archive.org/web/20240110000000/http://example.com"⟩ }

/-- Witness for C10 at a concrete racy 404 under `/web`. -/
theorem archive_url_404_web_equals_200_witness :
    archive_url envC10 =
      archive_url { envC10 with save := .ok ⟨200, "/web/20240110000000/http://example.com",
        "https://web.archive.org/web/20240110000000/http://example.com"⟩ } :=
  (archive_url_404_web_equals_200 envC10
    ⟨404, "/web/20240110000000/http://example.com",
      "https://web.archive.org/web/20240110000000/http://example.com"⟩
    (by decide) (by decide) (by decide)).1 (by decide)

/-- Projection used to refute the claim that decode failures surface
as `ArchiveError::Unknown`. -/
def errIsUnknown : Except ArchiveError ArchivingResult → Bool
  | .error (.Unknown _) => true
  | _ => false

def envC5 : HttpEnv :=
  { now := ⟨2024, 1, 10, 0, 0, 0⟩
    availability := .ok { url := "http://example.com", archived_snapshots := none }
    save := .ok ⟨200, "/save/http://example.com", "https://web.archive.org/save/http://example.com"⟩ }

/-- C5 counterexample: a 200 response whose final URL has no
`/web/<digits>/` segment makes `archive_url` fail with
`ParseError "unable to extract timestamp from url"` — a `ParseError`
(the spec's `MalformedTimestamp`), not the `Unknown` variant
(`UnknownFailure`) the claim names. -/
theorem archive_url_decode_failure_not_unknown :
    (archive_url envC5).1 = .error (.ParseError "unable to extract timestamp from url") ∧
    errIsUnknown (archive_url envC5).1 = false := by
  constructor <;> decide

/-- C5 amended: on a success-classified response (status 200, or the
tolerated 404 under `/web`), `archive_url` returns exactly the result
of decoding the final URL's `/web/<digits>/` timestamp: success with
`last_archived` equal to the decoded timestamp, and on decode failure
the `ParseError` itself (`MalformedTimestamp`), never a success. -/
theorem archive_url_success_timestamp (env : HttpEnv) (resp : SaveResponse)
    (hstale : acceptFresh env.now (fetch_latest_snapshot env.availability) = false)
    (hs : env.save = .ok resp)
    (hok : resp.status = 200 ∨ (resp.status = 404 ∧ rustStartsWith resp.urlPath "/web" = true)) :
    archive_url env =
      ((timestamp_from_archive_url resp.urlText).map fun ts =>
        { url := some resp.urlText, last_archived := ts, existing_snapshot := false },
        true) := by
  have hcl : classifyStatus resp = .ok resp.urlText := by
    rcases hok with h | ⟨h, hw⟩
    · simp [classifyStatus, h]
    · simp [classifyStatus, h, hw]
  rcases timestamp_from_archive_url_cases resp.urlText with ⟨ts, hts⟩ | ⟨msg, hts⟩ <;>
    simp only [archive_url, hstale, hs, hcl, hts, Bool.false_eq_true, if_false,
      Except.bind, Except.map]

def envC5w : HttpEnv :=
  { now := ⟨2024, 1, 10, 0, 0, 0⟩
    availability := .ok { url := "http://example.com", archived_snapshots := none }
    save := .ok ⟨200, "/web/20240110000000/http://example.com",
      "https://web.archive.org/web/20240110000000/http://example.com"⟩ }

/-- Witness for the amended C5 at a concrete decodable 200 response. -/
theorem archive_url_success_timestamp_witness :
    archive_url envC5w =
      ((timestamp_from_archive_url
          "https://web.archive.org/web/20240110000000/http://example.com").map fun ts =>
        { url := some "https://web.archive.org/web/20240110000000/http://example.com",
          last_archived := ts, existing_snapshot := false },
        true) :=
  archive_url_success_timestamp envC5w
    ⟨200, "/web/20240110000000/http://example.com",
      "https://web.archive.org/web/20240110000000/http://example.com"⟩
    (by decide) (by decide) (Or.inl (by decide))

def resp403 : SaveResponse :=
  ⟨403, "/save/http://example.com", "https://web.archive.org/save/http://example.com"⟩

/-- C3 counterexample: `src/main.rs`'s status classification sends a
403 to the catch-all `Unknown` arm (its `match` only lists
`520 | 523` for `ArchiveFailed`), so the claim that a 403 fails with
the permanent failure does not hold of the binary's requester. -/
theorem mainClassify_403_not_permanent :
    mainClassifyStatus resp403 = .error (.Unknown (unknownStatusMsg resp403)) ∧
    mainClassifyStatus resp403 ≠ .error MainArchiveError.ArchiveFailed := by
  constructor <;> decide

/-- C3 amended: both requesters classify 509 as the retryable
`BandwidthExceeded`; the library (`src/lib.rs`) classifies each of
403, 520 and 523 as the permanent `UnableToArchive`, while the
binary's duplicate (`src/main.rs`) classifies only 520 and 523 as
`ArchiveFailed` and sends 403 to the catch-all `Unknown` arm. -/
theorem classify_status_spec (p u : String) :
    classifyStatus ⟨509, p, u⟩ = .error .BandwidthExceeded ∧
    mainClassifyStatus ⟨509, p, u⟩ = .error .BandwidthExceeded ∧
    classifyStatus ⟨403, p, u⟩ = .error .UnableToArchive ∧
    classifyStatus ⟨520, p, u⟩ = .error .UnableToArchive ∧
    classifyStatus ⟨523, p, u⟩ = .error .UnableToArchive ∧
    mainClassifyStatus ⟨520, p, u⟩ = .error .ArchiveFailed ∧
    mainClassifyStatus ⟨523, p, u⟩ = .error .ArchiveFailed ∧
    mainClassifyStatus ⟨403, p, u⟩ = .error (.Unknown (unknownStatusMsg ⟨403, p, u⟩)) := by
  refine ⟨?_, ?_, ?_, ?_, ?_, ?_, ?_, ?_⟩ <;> simp [classifyStatus, mainClassifyStatus]

/-- Witness for the amended C3 at concrete path and URL texts. -/
theorem classify_status_spec_witness :
    classifyStatus ⟨509, "/save/e", "https://web.archive.org/save/e"⟩ =
      .error .BandwidthExceeded ∧
    mainClassifyStatus ⟨403, "/save/e", "https://web.archive.org/save/e"⟩ =
      .error (.Unknown (unknownStatusMsg ⟨403, "/save/e", "https://web.archive.org/save/e"⟩)) :=
  ⟨(classify_status_spec "/save/e" "https://web.archive.org/save/e").1,
    (classify_status_spec "/save/e" "https://web.archive.org/save/e").2.2.2.2.2.2.2⟩

/-- Modelled from the spec: `is_reusable(result, now)` is "true iff
`result.url` is present and `now - result.last_archived` < 180 days".
Stated only to compare against the code's cache check (`cacheFresh`),
which never examines `url`. -/
def is_reusable_spec (now : NaiveDateTime) (r : MainArchivingResult) : Bool :=
  r.url.isSome && decide (now.toEpochSec - r.last_archived.toEpochSec < 180 * 86400)

def tombstoneC4 : MainArchivingResult := { url := none, last_archived := ⟨2024, 1, 1, 0, 0, 0⟩ }

/-- C4 counterexample: a one-day-old tombstone (`url = None`) is
reused by the pipeline — `processTask` leaves the cache untouched and
performs no remote work — although the claim's reusability condition
requires `url` to be present (`is_reusable_spec` is `false` here). -/
theorem cache_reuses_urlless_tombstone :
    processTask ⟨2024, 1, 2, 0, 0, 0⟩ [("http://example.com", tombstoneC4)]
        ⟨"http://example.com", []⟩ =
      some ([("http://example.com", tombstoneC4)], [], false) ∧
    is_reusable_spec ⟨2024, 1, 2, 0, 0, 0⟩ tombstoneC4 = false := by
  constructor <;> decide

/-- C4 amended: a cached record short-circuits the pipeline — no
remote work, cache unchanged — if and only if
`now - last_archived < 180 days`; the `url` field is not examined, so
url-less tombstones short-circuit too. -/
theorem cache_short_circuit_iff (now : NaiveDateTime) (cache : CacheMap) (t : UrlTask)
    (existing : MainArchivingResult)
    (h : btGet cache t.line = some existing) :
    processTask now cache t = some (cache, [], false) ↔
      now.toEpochSec - existing.last_archived.toEpochSec < 180 * 86400 := by
  constructor
  · intro hp
    by_contra hcon
    have hcf : cacheFresh now existing = false := by
      simp only [cacheFresh, decide_eq_false_iff_not]
      exact hcon
    simp only [processTask, h, hcf, Bool.false_eq_true, if_false] at hp
    cases hr : resolve_with_retry now t.attempts with
    | finished r => simp [processRemote, hr] at hp
    | aborted m => simp [processRemote, hr] at hp
    | exhausted => simp [processRemote, hr] at hp
  · intro hfresh
    have hcf : cacheFresh now existing = true := by
      simp only [cacheFresh, decide_eq_true_eq]
      exact hfresh
    simp [processTask, h, hcf]

/-- Witness for the amended C4: a 100-day-old successful record is
inside the 180-day window and short-circuits. -/
theorem cache_short_circuit_iff_witness :
    processTask ⟨2024, 4, 10, 0, 0, 0⟩
        [("http://example.com",
          { url := some "http://web.archive.org/web/20240101000000/http://example.com",
            last_archived := ⟨2024, 1, 1, 0, 0, 0⟩ })]
        ⟨"http://example.com", []⟩ =
      some ([("http://example.com",
          { url := some "http://web.archive.org/web/20240101000000/http://example.com",
            last_archived := ⟨2024, 1, 1, 0, 0, 0⟩ })], [], false) :=
  (cache_short_circuit_iff ⟨2024, 4, 10, 0, 0, 0⟩
    [("http://example.com",
      { url := some "http://web.archive.org/web/20240101000000/http://example.com",
        last_archived := ⟨2024, 1, 1, 0, 0, 0⟩ })]
    ⟨"http://example.com", []⟩
    { url := some "http://web.archive.org/web/20240101000000/http://example.com",
      last_archived := ⟨2024, 1, 1, 0, 0, 0⟩ }
    (by decide)).mpr (by decide)

/-- Whether one `archive_url` call result is the retryable
rate-limiting case (`BandwidthExceeded` behind the `downcast_ref`). -/
def isRateLimitedAttempt : MainOutcome String → Bool
  | .err e => e.isBandwidthExceeded
  | _ => false

/-- C6: after any run of rate-limited attempts, the retry loop always
yields an `ArchivingResult` (it never propagates an error): the first
error other than `BandwidthExceeded` immediately — independently of
any later attempts, i.e. with no further retries — produces the
tombstone `{ url: None, last_archived: now }`, and a success
immediately produces `{ url: Some(out), last_archived: now }`. -/
theorem resolve_with_retry_tombstone (now : NaiveDateTime)
    (pre rest : List (MainOutcome String)) (e : BoxError) (out : String)
    (hpre : ∀ a ∈ pre, isRateLimitedAttempt a = true)
    (he : e.isBandwidthExceeded = false) :
    resolve_with_retry now (pre ++ MainOutcome.err e :: rest) =
      .finished { url := none, last_archived := now } ∧
    resolve_with_retry now (pre ++ MainOutcome.ok out :: rest) =
      .finished { url := some out, last_archived := now } := by
  induction pre with
  | nil =>
    constructor
    · simp [resolve_with_retry, he]
    · simp [resolve_with_retry]
  | cons a l ih =>
    have ha := hpre a (List.mem_cons_self a l)
    cases a with
    | ok o => simp [isRateLimitedAttempt] at ha
    | panicked m => simp [isRateLimitedAttempt] at ha
    | err e' =>
      simp only [isRateLimitedAttempt] at ha
      have ihl := ih fun x hx => hpre x (List.mem_cons_of_mem _ hx)
      constructor
      · simpa [resolve_with_retry, ha] using ihl.1
      · simpa [resolve_with_retry, ha] using ihl.2
  
/-- Witness for C6: one 509 retry, then a permanent failure yields the
tombstone (and, at the same prefix, a success yields the record). -/
theorem resolve_with_retry_tombstone_witness :
    resolve_with_retry ⟨2024, 1, 2, 0, 0, 0⟩
        [MainOutcome.err (.archive .BandwidthExceeded),
          MainOutcome.err (.archive .ArchiveFailed)] =
      .finished { url := none, last_archived := ⟨2024, 1, 2, 0, 0, 0⟩ } ∧
    resolve_with_retry ⟨2024, 1, 2, 0, 0, 0⟩
        [MainOutcome.err (.archive .BandwidthExceeded),
          MainOutcome.ok "https://web.archive.org/web/20240102000000/e"] =
      .finished
        { url := some "https://web.archive.org/web/20240102000000/e",
          last_archived := ⟨2024, 1, 2, 0, 0, 0⟩ } :=
  resolve_with_retry_tombstone ⟨2024, 1, 2, 0, 0, 0⟩
    [MainOutcome.err (.archive .BandwidthExceeded)] []
    (.archive .ArchiveFailed) "https://web.archive.org/web/20240102000000/e"
    (by decide) (by decide)

/-- The fall-through path of one loop iteration emits no persistence
event. -/
theorem processRemote_events_nil (now : NaiveDateTime) (cache : CacheMap) (t : UrlTask)
    (c : CacheMap) (ev : List SinkEvent) (b : Bool)
    (h : processRemote now cache t = some (c, ev, b)) : ev = [] := by
  unfold processRemote at h
  cases hr : resolve_with_retry now t.attempts with
  | finished r =>
    rw [hr, Option.some.injEq] at h
    exact (congrArg (fun p => p.2.1) h).symm
  | aborted m => rw [hr] at h; simp at h
  | exhausted => rw [hr] at h; simp at h

/-- No iteration of the input loop emits a persistence event: the
loop body of `main` contains no write to the `--out` destination. -/
theorem processTask_events_nil (now : NaiveDateTime) (cache : CacheMap) (t : UrlTask)
    (c : CacheMap) (ev : List SinkEvent) (b : Bool)
    (h : processTask now cache t = some (c, ev, b)) : ev = [] := by
  unfold processTask at h
  cases hg : btGet cache t.line with
  | some existing =>
    rw [hg] at h
    simp only [] at h
    by_cases hcf : cacheFresh now existing = true
    · rw [if_pos hcf, Option.some.injEq] at h
      exact (congrArg (fun p => p.2.1) h).symm
    · rw [if_neg hcf] at h
      exact processRemote_events_nil now cache t c ev b h
  | none =>
    rw [hg] at h
    simp only [] at h
    exact processRemote_events_nil now cache t c ev b h

/-- A completed input loop emits no persistence events at all. -/
theorem runLoop_events_nil (now : NaiveDateTime) :
    ∀ (tasks : List UrlTask) (cache c : CacheMap) (ev : List SinkEvent),
      runLoop now cache tasks = some (c, ev) → ev = [] := by
  intro tasks
  induction tasks with
  | nil =>
    intro cache c ev h
    simp only [runLoop, Option.some.injEq] at h
    exact (congrArg (fun p => p.2) h).symm
  | cons t ts ih =>
    intro cache c ev h
    unfold runLoop at h
    cases hp : processTask now cache t with
    | none => rw [hp] at h; simp at h
    | some p =>
      obtain ⟨c1, ev1, b1⟩ := p
      have hev1 : ev1 = [] := processTask_events_nil now cache t c1 ev1 b1 hp
      rw [hp] at h
      simp only [Option.map] at h
      cases hl : runLoop now c1 ts with
      | none => rw [hl] at h; simp at h
      | some q =>
        obtain ⟨c2, ev2⟩ := q
        have hev2 : ev2 = [] := ih c1 c2 ev2 hl
        rw [hl] at h
        simp only [Option.some.injEq] at h
        have := (congrArg (fun p => p.2) h).symm
        simpa [hev1, hev2] using this

/-- The 150 concrete input lines of the C7 scenario (fed in
descending key order; each resolves successfully on the first
attempt). -/
def c7Task (i : Nat) : UrlTask :=
  { line := "u" ++ toString (999 - i)
    attempts := [MainOutcome.ok ("s" ++ toString (999 - i))] }

def c7Tasks : List UrlTask := (List.range 150).map c7Task

def c7Now : NaiveDateTime := ⟨2024, 1, 2, 0, 0, 0⟩

def c7Expected : CacheMap :=
  (List.range 150).map fun i =>
    ("u" ++ toString (850 + i),
      { url := some ("s" ++ toString (850 + i)), last_archived := c7Now })

set_option maxRecDepth 8000

/-- C7 counterexample: processing 150 URLs to completion emits not a
single persistence event — there is no per-100-URL checkpoint in the
loop, so a process terminated after the 150th URL but before the
final write has persisted nothing (far from "at least the first 100
entries"). -/
theorem no_checkpoint_during_loop_150 :
    runLoop c7Now [] c7Tasks = some (c7Expected, []) := by
  decide


/-- C7 amended: the cache is persisted exactly once per run — the
single unconditional write after the input loop ends; no event is
emitted during the loop itself. -/
theorem checkpoint_only_at_end (now : NaiveDateTime) (cache : CacheMap)
    (tasks : List UrlTask) (path old : String) (c : CacheMap) (ev : List SinkEvent)
    (h : runLoop now cache tasks = some (c, ev)) :
    runMain now cache tasks (some path) old =
      some (c, [SinkEvent.fileWrite (writeNoTruncate old (serializeCache c))]) := by
  have hev : ev = [] := runLoop_events_nil now tasks cache c ev h
  rw [hev] at h
  simp [runMain, h]

/-- Witness for the amended C7 on a concrete two-URL run. -/
theorem checkpoint_only_at_end_witness :
    runMain c7Now [] [⟨"a", [MainOutcome.ok "sa"]⟩, ⟨"b", [MainOutcome.ok "sb"]⟩]
        (some "urls.json") "" =
      some ([("a", { url := some "sa", last_archived := c7Now }),
             ("b", { url := some "sb", last_archived := c7Now })],
        [SinkEvent.fileWrite (writeNoTruncate ""
          (serializeCache [("a", { url := some "sa", last_archived := c7Now }),
             ("b", { url := some "sb", last_archived := c7Now })]))]) :=
  checkpoint_only_at_end c7Now [] [⟨"a", [MainOutcome.ok "sa"]⟩, ⟨"b", [MainOutcome.ok "sb"]⟩]
    "urls.json" ""
    [("a", { url := some "sa", last_archived := c7Now }),
      ("b", { url := some "sb", last_archived := c7Now })] [] (by decide)

def c8Result : MainArchivingResult :=
  { url := some "https://web.archive.org/web/20240102000000/a"
    last_archived := ⟨2024, 1, 2, 0, 0, 0⟩ }

/-- The destination file's content before the run: the serialization
of an earlier, larger cache (two entries) left by a previous run. -/
def c8OldContent : String :=
  serializeCache
    [("a", c8Result),
      ("b", { url := some "https://web.archive.org/web/20240101000000/b"
              last_archived := ⟨2024, 1, 1, 0, 0, 0⟩ })]

/-- C8: `main` opens the `--out` file with
`write(true).create(true)` but no `truncate`, so after a run whose
cache serializes to fewer bytes than the file previously held, the
file is the new serialization followed by the stale tail of the old
content — not "exactly the JSON serialization of the cache".  Shown
end to end on a one-URL run over a file left by a two-entry run. -/
theorem checkpoint_write_keeps_stale_tail :
    runMain ⟨2024, 1, 2, 0, 0, 0⟩ []
        [⟨"a", [MainOutcome.ok "https://web.archive.org/web/20240102000000/a"]⟩]
        (some "urls.json") c8OldContent =
      some ([("a", c8Result)],
        [SinkEvent.fileWrite (writeNoTruncate c8OldContent (serializeCache [("a", c8Result)]))]) ∧
    writeNoTruncate c8OldContent (serializeCache [("a", c8Result)]) ≠
      serializeCache [("a", c8Result)] := by
  constructor <;> decide

/-- The availability body of the C9 scenario: one candidate snapshot
whose `timestamp` field is not a `%Y%m%d%H%M%S` value. -/
def availBadTs : AvailOutcome :=
  .ok { url := "http://example.com"
        archived_snapshots := some
          [("closest",
            { status := "200", available := true
              url := "http://web.archive.org/web/xyz/http://example.com"
              timestamp := "not-a-date" })] }

def envBadTs : HttpEnv :=
  { now := ⟨2024, 1, 2, 0, 0, 0⟩
    availability := availBadTs
    save := .ok ⟨200, "/web/20240102000000/http://example.com",
      "https://web.archive.org/web/20240102000000/http://example.com"⟩ }

/-- Projection: is a `fetch_latest_snapshot` result the graceful
`ParseError`? -/
def errIsParseError : Except ArchiveError ArchivingResult → Bool
  | .error (.ParseError _) => true
  | _ => false

/-- C9: an availability response whose snapshot timestamp does not
parse makes `src/main.rs::archive_url` panic (its
`.expect("snapshot timestamp")`), aborting the entire batch run
instead of recording a tombstone and continuing — while the library
(`src/lib.rs::fetch_latest_snapshot`) handles the same body
gracefully with a `ParseError`. -/
theorem bad_avail_timestamp_aborts_run :
    main_archive_url envBadTs = .panicked "snapshot timestamp" ∧
    runLoop ⟨2024, 1, 2, 0, 0, 0⟩ []
        [⟨"http://example.com", [main_archive_url envBadTs]⟩] = none ∧
    errIsParseError (fetch_latest_snapshot availBadTs) = true := by
  refine ⟨?_, ?_, ?_⟩ <;> decide
